import Mathlib

/-!
Shallow embedding of the sale reconciliation engine of the profitably
repository: the POST / PATCH / DELETE handlers of
`app/api/sales/route.ts`, acting on an abstract relational store holding
the `items` and `sales` tables.

JavaScript numbers are modelled as exact rationals extended with `NaN`
and the two infinities; negative zero and the coercion of numeric
strings by arithmetic operators are not modelled (no verified property
exercises them, and the note is repeated at the definitions concerned).
The authenticated user is a string id; the store assigns row ids that
are passed in as parameters.
-/

namespace Profitably

/-- A JSON / JavaScript value as it appears in a request body field or a
table column. `num` carries an exact rational in place of an IEEE double. -/
inductive JVal where
  | num (q : ℚ)
  | nan
  | inf
  | ninf
  | str (s : String)
  | jbool (b : Bool)
  | jnull
  | undef
deriving DecidableEq, Repr

/-- JavaScript `ToNumber` coercion, as applied by arithmetic operators and
relational comparisons. Numeric strings are not parsed: every non-empty
string coerces to `nan` here (the empty string coerces to `0` as in JS);
no verified property feeds a string to an arithmetic operator. -/
def toNum : JVal → JVal
  | .str s => if s = "" then .num 0 else .nan
  | .jbool b => .num (if b then 1 else 0)
  | .jnull => .num 0
  | .undef => .nan
  | v => v

/-- JavaScript truthiness: `0`, `NaN`, the empty string, `false`, `null`
and `undefined` are falsy, everything else is truthy. -/
def truthy : JVal → Bool
  | .num q => q != 0
  | .nan => false
  | .inf => true
  | .ninf => true
  | .str s => s != ""
  | .jbool b => b
  | .jnull => false
  | .undef => false

/-- JavaScript `typeof v === 'number'`. -/
def isNumberType : JVal → Bool
  | .num _ => true
  | .nan => true
  | .inf => true
  | .ninf => true
  | _ => false

/-- JavaScript addition on numbers (after `ToNumber`); `NaN` absorbs. -/
def jadd (a b : JVal) : JVal :=
  match toNum a, toNum b with
  | .num x, .num y => .num (x + y)
  | .num _, .inf => .inf
  | .inf, .num _ => .inf
  | .num _, .ninf => .ninf
  | .ninf, .num _ => .ninf
  | .inf, .inf => .inf
  | .ninf, .ninf => .ninf
  | _, _ => .nan

/-- JavaScript negation on numbers (after `ToNumber`). -/
def jneg (a : JVal) : JVal :=
  match toNum a with
  | .num x => .num (-x)
  | .inf => .ninf
  | .ninf => .inf
  | _ => .nan

/-- JavaScript subtraction, `a - b = a + (-b)`. -/
def jsub (a b : JVal) : JVal := jadd a (jneg b)

/-- JavaScript multiplication on numbers (after `ToNumber`);
`0 * Infinity` is `NaN`. -/
def jmul (a b : JVal) : JVal :=
  match toNum a, toNum b with
  | .num x, .num y => .num (x * y)
  | .num x, .inf => if x = 0 then .nan else if 0 < x then .inf else .ninf
  | .inf, .num y => if y = 0 then .nan else if 0 < y then .inf else .ninf
  | .num x, .ninf => if x = 0 then .nan else if 0 < x then .ninf else .inf
  | .ninf, .num y => if y = 0 then .nan else if 0 < y then .ninf else .inf
  | .inf, .inf => .inf
  | .ninf, .ninf => .inf
  | .inf, .ninf => .ninf
  | .ninf, .inf => .ninf
  | _, _ => .nan

/-- JavaScript division on numbers (after `ToNumber`); a nonzero number
divided by zero gives a signed infinity, `0 / 0` gives `NaN` (negative
zero is not modelled, so the sign of an infinite quotient follows the
numerator). -/
def jdiv (a b : JVal) : JVal :=
  match toNum a, toNum b with
  | .num x, .num y =>
      if y = 0 then (if x = 0 then .nan else if 0 < x then .inf else .ninf)
      else .num (x / y)
  | .num _, .inf => .num 0
  | .num _, .ninf => .num 0
  | .inf, .num y => if 0 ≤ y then .inf else .ninf
  | .ninf, .num y => if 0 ≤ y then .ninf else .inf
  | _, _ => .nan

/-- JavaScript `a < b` on numbers (after `ToNumber`); any comparison
involving `NaN` is false. The string-string lexicographic case is not
modelled: every comparison in the embedded code has a number on one side. -/
def jlt (a b : JVal) : Bool :=
  match toNum a, toNum b with
  | .num x, .num y => decide (x < y)
  | .num _, .inf => true
  | .ninf, .num _ => true
  | .ninf, .inf => true
  | _, _ => false

/-- JavaScript `a > b`. -/
def jgt (a b : JVal) : Bool := jlt b a

/-- Is the coerced value `NaN`. -/
def isNan (v : JVal) : Bool := toNum v == .nan

/-- JavaScript `a <= b` on numbers: false when either side is `NaN`,
otherwise the negation of `b < a`. -/
def jle (a b : JVal) : Bool := !(isNan a) && !(isNan b) && !(jlt b a)

/-- JavaScript `a || b`. -/
def jor (a b : JVal) : JVal := if truthy a then a else b

/-- JavaScript strict `a !== 0`: true unless `a` is the number zero. -/
def strictNeZero : JVal → Bool
  | .num q => q != 0
  | _ => true

/-! ## The relational store

Rows of the `items` and `sales` tables, restricted to the columns the
sale handlers read or write. A `DB` is the pair of tables; `find?` models
`.select(...).eq(...).single()` (ids are unique in the real store, so the
first match is the row), `map` with an id test models `.update(...).eq(...)`
and `filter` models `.delete().eq(...)`. -/

/-- A row of the `items` table (the columns the sale handlers touch). -/
structure ItemRow where
  id : String
  user_id : String
  purchase_price : JVal
  quantity_purchased : JVal
  quantity_on_hand : JVal
  quantity_sold : JVal
deriving DecidableEq, Repr

/-- A row of the `sales` table (the columns the sale handlers touch). -/
structure SaleRow where
  id : String
  user_id : String
  item_id : String
  platform : JVal
  sale_price : JVal
  sale_date : JVal
  quantity_sold : JVal
  platform_fees : JVal
  shipping_cost : JVal
  other_fees : JVal
  notes : JVal
  gross_profit : JVal
  net_profit : JVal
  profit_margin : JVal
  is_synced_from_api : Bool
deriving DecidableEq, Repr

/-- The store state: the two tables the sale handlers touch. -/
structure DB where
  items : List ItemRow
  sales : List SaleRow
deriving DecidableEq, Repr

/-- The equality filter of the store between a JS body value and a text id
column: only equal strings match (id columns hold uuid strings). -/
def idMatches (v : JVal) (s : String) : Bool :=
  match v with
  | .str t => t == s
  | _ => false

/-- `.from('items').select('*').eq('id', id).single()` — the PATCH and
DELETE handlers look the item up by id alone, without a user filter. -/
def findItem (db : DB) (id : String) : Option ItemRow :=
  db.items.find? fun i => i.id == id

/-- `.from('items').select(...).eq('id', item_id).eq('user_id', user).single()`
with the raw body value as key — the ownership-checking lookup of POST. -/
def findItemOwnedBy (db : DB) (v : JVal) (user : String) : Option ItemRow :=
  db.items.find? fun i => idMatches v i.id && i.user_id == user

/-- `.from('sales').select(...).eq('id', id).eq('user_id', user).single()`
with a string id — the DELETE lookup. -/
def findSaleOwned (db : DB) (id user : String) : Option SaleRow :=
  db.sales.find? fun s => s.id == id && s.user_id == user

/-- `.from('sales').select('*').eq('id', id).eq('user_id', user).single()`
with the raw body value as key — the PATCH lookup. -/
def findSaleOwnedBy (db : DB) (v : JVal) (user : String) : Option SaleRow :=
  db.sales.find? fun s => idMatches v s.id && s.user_id == user

/-- `.from('items').update({quantity_on_hand, quantity_sold}).eq('id', id)`. -/
def setItemQuantities (db : DB) (id : String) (onHand sold : JVal) : DB :=
  { db with items := db.items.map fun i =>
      if i.id == id then { i with quantity_on_hand := onHand, quantity_sold := sold } else i }

/-- `.from('sales').update(fields).eq('id', id)` with the raw body value as
key — note the PATCH write carries no user filter. -/
def setSaleRow (db : DB) (v : JVal) (f : SaleRow → SaleRow) : DB :=
  { db with sales := db.sales.map fun s => if idMatches v s.id then f s else s }

/-! ## POST /api/sales — recordSale -/

/-- The request body of POST, as destructured by the handler. -/
structure PostBody where
  item_id : JVal
  platform : JVal
  sale_price : JVal
  sale_date : JVal
  quantity_sold : JVal
  platform_fees : JVal
  shipping_cost : JVal
  other_fees : JVal
  notes : JVal
deriving DecidableEq, Repr

/-- The three 400-level validation rejections of POST. -/
inductive PostError where
  | missingFields
  | invalidPrice
  | invalidQuantity
deriving DecidableEq, Repr

/-- The validation prefix of the POST handler (route.ts lines 73-92): the
truthiness check on the five required fields, then
`typeof sale_price !== 'number' || sale_price < 0`, then
`typeof quantity_sold !== 'number' || quantity_sold <= 0`. -/
def postValidate (b : PostBody) : Option PostError :=
  if !(truthy b.item_id && truthy b.platform && truthy b.sale_price
        && truthy b.sale_date && truthy b.quantity_sold) then
    some .missingFields
  else if !(isNumberType b.sale_price) || jlt b.sale_price (.num 0) then
    some .invalidPrice
  else if !(isNumberType b.quantity_sold) || jle b.quantity_sold (.num 0) then
    some .invalidQuantity
  else
    none

/-- The outcome of the POST handler. `insufficientStock` carries the
available quantity the error message interpolates
(`Only (available) units available`). -/
inductive PostResult where
  | invalid (e : PostError)
  | itemNotFound
  | insufficientStock (available : JVal)
  | created (sale : SaleRow)
deriving DecidableEq, Repr

/-- Modelled from the spec: the database trigger fired by the `sales`
insert. The POST handler only inserts the raw row — the comment at
route.ts line 117 says `database trigger will calculate profit and update
quantities` — and the trigger itself is not part of the repository source
tree. Per sections 3 and 4.1 of the spec it computes
`gross_profit = (sale_price - item.purchase_price) * quantity_sold`,
`net_profit = gross_profit - platform_fees - shipping_cost - other_fees`
(the fee columns of the inserted row are already defaulted to 0 by the
handler), `profit_margin = net_profit / (sale_price * quantity_sold) * 100`
when `sale_price * quantity_sold > 0` and `0` otherwise, and moves
`quantity_sold` units of the item from `quantity_on_hand` to
`quantity_sold`. -/
def salesInsertTrigger (it : ItemRow) (row : SaleRow) : SaleRow × ItemRow :=
  let gross := jmul (jsub row.sale_price it.purchase_price) row.quantity_sold
  let net := jsub (jsub (jsub gross row.platform_fees) row.shipping_cost) row.other_fees
  let revenue := jmul row.sale_price row.quantity_sold
  let margin := if jgt revenue (.num 0) then jmul (jdiv net revenue) (.num 100) else .num 0
  ({ row with gross_profit := gross, net_profit := net, profit_margin := margin },
   { it with
      quantity_on_hand := jsub it.quantity_on_hand row.quantity_sold,
      quantity_sold := jadd it.quantity_sold row.quantity_sold })

/-- The row the POST handler inserts: the body fields with the fee fields
defaulted through `|| 0` and the notes through `|| null`; the derived
columns are still unset when the insert fires the trigger. -/
def rawSaleRow (user : String) (b : PostBody) (newId itemId : String) : SaleRow :=
  { id := newId, user_id := user, item_id := itemId,
    platform := b.platform, sale_price := b.sale_price,
    sale_date := b.sale_date, quantity_sold := b.quantity_sold,
    platform_fees := jor b.platform_fees (.num 0),
    shipping_cost := jor b.shipping_cost (.num 0),
    other_fees := jor b.other_fees (.num 0),
    notes := jor b.notes .jnull,
    gross_profit := .jnull, net_profit := .jnull, profit_margin := .jnull,
    is_synced_from_api := false }

/-- The POST handler of app/api/sales/route.ts for an authenticated user:
validation, ownership lookup, stock check, then the insert (which fires
`salesInsertTrigger`). `newId` is the row id the store assigns; the
response carries the inserted row read back after the trigger. -/
def recordSale (db : DB) (user : String) (b : PostBody) (newId : String) :
    PostResult × DB :=
  match postValidate b with
  | some e => (.invalid e, db)
  | none =>
    match findItemOwnedBy db b.item_id user with
    | none => (.itemNotFound, db)
    | some item =>
      if jlt item.quantity_on_hand b.quantity_sold then
        (.insufficientStock item.quantity_on_hand, db)
      else
        let fired := salesInsertTrigger item (rawSaleRow user b newId item.id)
        let db1 := setItemQuantities db item.id
          fired.2.quantity_on_hand fired.2.quantity_sold
        (.created fired.1, { db1 with sales := fired.1 :: db1.sales })

/-! ## PATCH /api/sales — updateSale -/

/-- The request body of PATCH, as destructured by the handler. -/
structure PatchBody where
  id : JVal
  platform : JVal
  sale_price : JVal
  sale_date : JVal
  quantity_sold : JVal
  platform_fees : JVal
  shipping_cost : JVal
  other_fees : JVal
  notes : JVal
deriving DecidableEq, Repr

/-- The outcome of the PATCH handler. `insufficientStock` carries the two
quantities the error message interpolates
(`Not enough stock. You need (needed) more, but only have (available).`);
`serverError` is the catch handler (reached when the item lookup returned
null and the member access threw). -/
inductive PatchResult where
  | idRequired
  | saleNotFound
  | serverError
  | insufficientStock (needed available : JVal)
  | ok (sale : SaleRow)
deriving DecidableEq, Repr

/-- The full-replace write the PATCH handler applies to the sale row
(route.ts lines 203-222): every mutable field is replaced by the body
value — fees raw, not defaulted — and the three derived fields are
recomputed from the new inputs and the item's current `purchase_price`,
with the margin guarded by `sale_price > 0`. -/
def patchedSale (b : PatchBody) (item : ItemRow) (s : SaleRow) : SaleRow :=
  let purchasePrice := item.purchase_price
  let gross := jsub (jmul b.sale_price b.quantity_sold)
                    (jmul purchasePrice b.quantity_sold)
  let net := jsub (jsub (jsub gross (jor b.platform_fees (.num 0)))
                  (jor b.shipping_cost (.num 0))) (jor b.other_fees (.num 0))
  let margin := if jgt b.sale_price (.num 0) then
      jmul (jdiv net (jmul b.sale_price b.quantity_sold)) (.num 100)
    else .num 0
  { s with platform := b.platform, sale_price := b.sale_price,
           sale_date := b.sale_date, quantity_sold := b.quantity_sold,
           platform_fees := b.platform_fees,
           shipping_cost := b.shipping_cost,
           other_fees := b.other_fees, notes := b.notes,
           gross_profit := gross, net_profit := net,
           profit_margin := margin }

/-- The PATCH handler of app/api/sales/route.ts for an authenticated user.
All body fields replace the stored ones (full replace, no validation);
the profit fields are recomputed from the new inputs and the item's
current `purchase_price`; the item counters are adjusted by the quantity
difference when it is strictly different from `0`. -/
def updateSale (db : DB) (user : String) (b : PatchBody) : PatchResult × DB :=
  if !(truthy b.id) then (.idRequired, db)
  else
    match findSaleOwnedBy db b.id user with
    | none => (.saleNotFound, db)
    | some oldSale =>
      match findItem db oldSale.item_id with
      | none => (.serverError, db)
      | some item =>
        let quantityDiff := jsub b.quantity_sold oldSale.quantity_sold
        if jgt quantityDiff (.num 0) && jlt item.quantity_on_hand quantityDiff then
          (.insufficientStock quantityDiff item.quantity_on_hand, db)
        else
          let db1 := setSaleRow db b.id (patchedSale b item)
          let db2 := if strictNeZero quantityDiff then
              setItemQuantities db1 item.id
                (jsub item.quantity_on_hand quantityDiff)
                (jadd item.quantity_sold quantityDiff)
            else db1
          (.ok (patchedSale b item oldSale), db2)

/-! ## DELETE /api/sales — deleteSale -/

/-- The outcome of the DELETE handler: either the missing-id rejection or
the success confirmation (`Sale deleted successfully`) — there is no
not-found outcome. -/
inductive DeleteResult where
  | idRequired
  | deleted
deriving DecidableEq, Repr

/-- The DELETE handler of app/api/sales/route.ts for an authenticated
user; `saleId` is `searchParams.get('id')` (`none` when absent). If the
owned sale is found and its item is found, the sale quantity is added
back to the item's on-hand counter and removed from its sold counter;
in every case the handler then deletes the matching sale rows and
reports success. -/
def deleteSale (db : DB) (user : String) (saleId : Option String) :
    DeleteResult × DB :=
  match saleId with
  | none => (.idRequired, db)
  | some sid =>
    if sid == "" then (.idRequired, db)
    else
      let db1 :=
        match findSaleOwned db sid user with
        | none => db
        | some sale =>
          match findItem db sale.item_id with
          | none => db
          | some item =>
            setItemQuantities db sale.item_id
              (jadd item.quantity_on_hand sale.quantity_sold)
              (jsub item.quantity_sold sale.quantity_sold)
      (.deleted, { db1 with sales := db1.sales.filter fun s => !(s.id == sid && s.user_id == user) })

/-! ## Projections used to state the claims without existential binders -/

/-- The sale carried by a successful PATCH outcome. -/
def patchOk : PatchResult → Option SaleRow
  | .ok s => some s
  | _ => none

/-- The sale carried by a created POST outcome. -/
def postCreated : PostResult → Option SaleRow
  | .created s => some s
  | _ => none

/-- True for the two PATCH outcomes that pass the ownership lookups:
stock rejection or success. -/
def patchStockOrOk : PatchResult → Bool
  | .insufficientStock _ _ => true
  | .ok _ => true
  | _ => false

/-- The sum of the two mutable counters of an item row. -/
def countersSum (i : ItemRow) : JVal := jadd i.quantity_on_hand i.quantity_sold

/-! ## Helper lemmas: lists -/

lemma find?_map_invar {α : Type} (l : List α) (p : α → Bool) (g : α → α)
    (h : ∀ a, p (g a) = p a) :
    (l.map g).find? p = (l.find? p).map g := by
  induction l with
  | nil => rfl
  | cons x xs ih =>
    cases hpx : p x with
    | true =>
      rw [List.map_cons, List.find?_cons_of_pos _ ((h x).trans hpx),
          List.find?_cons_of_pos _ hpx]
      rfl
    | false =>
      rw [List.map_cons,
          List.find?_cons_of_neg _ (by rw [h x, hpx]; exact Bool.false_ne_true),
          List.find?_cons_of_neg _ (by rw [hpx]; exact Bool.false_ne_true), ih]

lemma filter_not_eq_self_of_find?_none {α : Type} (l : List α) (p : α → Bool)
    (h : l.find? p = none) : (l.filter fun a => !(p a)) = l := by
  rw [List.filter_eq_self]
  intro a ha
  rw [List.find?_eq_none] at h
  simp [h a ha]

lemma find?_filter_not {α : Type} (l : List α) (p : α → Bool) :
    (l.filter fun a => !(p a)).find? p = none := by
  rw [List.find?_eq_none]
  intro a ha
  have := (List.mem_filter.mp ha).2
  simp at this
  simp [this]

/-! ## Helper lemmas: JavaScript arithmetic on plain numbers -/

@[simp] lemma jadd_num (x y : ℚ) : jadd (.num x) (.num y) = .num (x + y) := rfl

@[simp] lemma jsub_num (x y : ℚ) : jsub (.num x) (.num y) = .num (x - y) := by
  have h : x - y = x + -y := sub_eq_add_neg x y
  rw [h]; rfl

@[simp] lemma jmul_num (x y : ℚ) : jmul (.num x) (.num y) = .num (x * y) := rfl

@[simp] lemma jlt_num (x y : ℚ) : jlt (.num x) (.num y) = decide (x < y) := rfl

@[simp] lemma jgt_num (x y : ℚ) : jgt (.num x) (.num y) = decide (y < x) := rfl

lemma jdiv_num (x y : ℚ) (hy : y ≠ 0) : jdiv (.num x) (.num y) = .num (x / y) := by
  simp [jdiv, toNum, hy]

lemma jor_num_zero (q : ℚ) : jor (.num q) (.num 0) = .num q := by
  by_cases h : q = 0 <;> simp [jor, truthy, h]

/-- The defaulting `fee || 0` of a fee field that is either the number `q`
or absent with `q = 0`. -/
lemma jor_fee {v : JVal} {q : ℚ} (h : v = .num q ∨ (v = .undef ∧ q = 0)) :
    jor v (.num 0) = .num q := by
  rcases h with h | ⟨h, h0⟩
  · rw [h]; exact jor_num_zero q
  · rw [h, h0]; rfl

lemma jmul_undef_right (v : JVal) : jmul v .undef = .nan := by
  cases v with
  | str s => by_cases hs : s = "" <;> simp [jmul, toNum, hs]
  | _ => rfl

lemma jsub_nan_left (v : JVal) : jsub .nan v = .nan := rfl

lemma jsub_undef_left (v : JVal) : jsub .undef v = .nan := rfl

lemma jsub_nan_gives_nan (a b : JVal) (ha : a = .nan) : jsub a b = .nan := by
  rw [ha]; rfl

@[simp] lemma strictNeZero_num (q : ℚ) : strictNeZero (.num q) = (q != 0) := rfl

/-! ## Helper lemmas: the store -/

lemma findItem_setItemQuantities (db : DB) (id : String) (oh sold : JVal)
    (it : ItemRow) (h : findItem db id = some it) :
    findItem (setItemQuantities db id oh sold) id
      = some { it with quantity_on_hand := oh, quantity_sold := sold } := by
  unfold findItem at h
  have hid : (it.id == id) = true := by
    have h2 := List.find?_some h
    simpa using h2
  unfold findItem setItemQuantities
  rw [find?_map_invar _ _ _ (fun a => by by_cases ha : (a.id == id) = true <;> simp [ha]),
      h]
  simp only [Option.map_some', if_pos hid]

lemma findItem_setSaleRow (db : DB) (v : JVal) (f : SaleRow → SaleRow)
    (id : String) : findItem (setSaleRow db v f) id = findItem db id := rfl

lemma findItem_id_eq (db : DB) (id : String) (it : ItemRow)
    (h : findItem db id = some it) : it.id = id := by
  unfold findItem at h
  have h2 := List.find?_some h
  simpa using h2

lemma findSaleOwned_ids (db : DB) (id user : String) (s : SaleRow)
    (h : findSaleOwned db id user = some s) : s.id = id ∧ s.user_id = user := by
  unfold findSaleOwned at h
  have h2 := List.find?_some h
  simpa using h2

lemma findItem_sales_set (db : DB) (l : List SaleRow) (id : String) :
    findItem { db with sales := l } id = findItem db id := rfl

lemma sales_setItemQuantities (db : DB) (id : String) (oh sold : JVal) :
    (setItemQuantities db id oh sold).sales = db.sales := rfl

/-! ## Helper lemmas: the validation prefix of POST -/

/-- Characterization of the POST validation on a body whose price and
quantity are plain numbers and whose other required fields are truthy:
it passes exactly when both numbers are strictly positive (the zero
price is caught by the truthiness test of the missing-fields check, the
negative price by the price check, the non-positive quantity by the
quantity check; nothing tests integrality). -/
lemma postValidate_none_iff (b : PostBody) (p q : ℚ)
    (hsp : b.sale_price = .num p) (hq : b.quantity_sold = .num q)
    (hid : truthy b.item_id = true) (hpl : truthy b.platform = true)
    (hdt : truthy b.sale_date = true) :
    postValidate b = none ↔ (0 < p ∧ 0 < q) := by
  unfold postValidate
  rw [hsp, hq, hid, hpl, hdt]
  split_ifs with h1 h2 h3
  · simp [truthy] at h1
    exact iff_of_false (by simp) (by rintro ⟨hp, hq2⟩; rcases h1 with h | h
                                     · exact hp.ne' h
                                     · exact hq2.ne' h)
  · simp [isNumberType, jlt, toNum] at h2
    exact iff_of_false (by simp) (by rintro ⟨hp, _⟩; linarith)
  · simp [isNumberType, jle, isNan, jlt, toNum] at h3
    exact iff_of_false (by simp) (by rintro ⟨_, hq2⟩; linarith)
  · simp [truthy] at h1
    simp [isNumberType, jlt, toNum] at h2
    simp [isNumberType, jle, isNan, jlt, toNum] at h3
    exact iff_of_true rfl ⟨lt_of_le_of_ne h2 (Ne.symm h1.1), h3⟩

/-- A body that passes validation with a numeric price and quantity has
both strictly positive. -/
lemma postValidate_none_pos (b : PostBody) (p q : ℚ)
    (hsp : b.sale_price = .num p) (hq : b.quantity_sold = .num q)
    (h : postValidate b = none) : 0 < p ∧ 0 < q := by
  unfold postValidate at h
  rw [hsp, hq] at h
  split_ifs at h with h1 h2 h3
  all_goals try simp at h
  simp [truthy] at h1
  simp [isNumberType, jlt, toNum] at h2
  simp [isNumberType, jle, isNan, jlt, toNum] at h3
  exact ⟨lt_of_le_of_ne h2 (Ne.symm h1.1.1.2), h3⟩

/-! ## Helper lemmas: outcome shapes of the handlers -/

lemma updateSale_ok (db : DB) (user : String) (b : PatchBody)
    (oldSale : SaleRow) (item : ItemRow)
    (hid : truthy b.id = true)
    (hfind : findSaleOwnedBy db b.id user = some oldSale)
    (hitem : findItem db oldSale.item_id = some item)
    (hstock : (jgt (jsub b.quantity_sold oldSale.quantity_sold) (.num 0)
        && jlt item.quantity_on_hand (jsub b.quantity_sold oldSale.quantity_sold)) = false) :
    updateSale db user b =
      (.ok (patchedSale b item oldSale),
       if strictNeZero (jsub b.quantity_sold oldSale.quantity_sold) then
         setItemQuantities (setSaleRow db b.id (patchedSale b item)) item.id
           (jsub item.quantity_on_hand (jsub b.quantity_sold oldSale.quantity_sold))
           (jadd item.quantity_sold (jsub b.quantity_sold oldSale.quantity_sold))
       else setSaleRow db b.id (patchedSale b item)) := by
  simp only [updateSale, hid, hfind, hitem, hstock, Bool.not_true,
    Bool.false_eq_true, if_false]

lemma updateSale_ok_item (db : DB) (user : String) (b : PatchBody)
    (oldSale : SaleRow) (item : ItemRow)
    (hid : truthy b.id = true)
    (hfind : findSaleOwnedBy db b.id user = some oldSale)
    (hitem : findItem db oldSale.item_id = some item)
    (hstock : (jgt (jsub b.quantity_sold oldSale.quantity_sold) (.num 0)
        && jlt item.quantity_on_hand (jsub b.quantity_sold oldSale.quantity_sold)) = false)
    (idq : String) :
    findItem (updateSale db user b).2 idq
      = if strictNeZero (jsub b.quantity_sold oldSale.quantity_sold) then
          findItem (setItemQuantities (setSaleRow db b.id (patchedSale b item))
            item.id
            (jsub item.quantity_on_hand (jsub b.quantity_sold oldSale.quantity_sold))
            (jadd item.quantity_sold (jsub b.quantity_sold oldSale.quantity_sold))) idq
        else findItem db idq := by
  rw [updateSale_ok db user b oldSale item hid hfind hitem hstock]
  by_cases hz : strictNeZero (jsub b.quantity_sold oldSale.quantity_sold) = true
  · rw [if_pos hz, if_pos hz]
  · rw [if_neg hz, if_neg hz]
    rfl

lemma updateSale_stockFail (db : DB) (user : String) (b : PatchBody)
    (oldSale : SaleRow) (item : ItemRow)
    (hid : truthy b.id = true)
    (hfind : findSaleOwnedBy db b.id user = some oldSale)
    (hitem : findItem db oldSale.item_id = some item)
    (hstock : (jgt (jsub b.quantity_sold oldSale.quantity_sold) (.num 0)
        && jlt item.quantity_on_hand (jsub b.quantity_sold oldSale.quantity_sold)) = true) :
    updateSale db user b =
      (.insufficientStock (jsub b.quantity_sold oldSale.quantity_sold)
        item.quantity_on_hand, db) := by
  simp only [updateSale, hid, hfind, hitem, hstock, Bool.not_true,
    Bool.false_eq_true, if_false, if_true]

lemma recordSale_created (db : DB) (user : String) (b : PostBody) (newId : String)
    (item : ItemRow)
    (hval : postValidate b = none)
    (hfind : findItemOwnedBy db b.item_id user = some item)
    (hstock : jlt item.quantity_on_hand b.quantity_sold = false) :
    recordSale db user b newId =
      (.created (salesInsertTrigger item (rawSaleRow user b newId item.id)).1,
       { setItemQuantities db item.id
           (salesInsertTrigger item (rawSaleRow user b newId item.id)).2.quantity_on_hand
           (salesInsertTrigger item (rawSaleRow user b newId item.id)).2.quantity_sold
         with sales := (salesInsertTrigger item (rawSaleRow user b newId item.id)).1
           :: db.sales }) := by
  simp only [recordSale, hval, hfind, hstock, Bool.false_eq_true, if_false]
  rfl

lemma recordSale_stockFail (db : DB) (user : String) (b : PostBody) (newId : String)
    (item : ItemRow)
    (hval : postValidate b = none)
    (hfind : findItemOwnedBy db b.item_id user = some item)
    (hstock : jlt item.quantity_on_hand b.quantity_sold = true) :
    recordSale db user b newId = (.insufficientStock item.quantity_on_hand, db) := by
  simp only [recordSale, hval, hfind, hstock, if_true]

lemma deleteSale_notFound (db : DB) (user sid : String)
    (hsid : (sid == "") = false)
    (hfind : findSaleOwned db sid user = none) :
    deleteSale db user (some sid) = (.deleted, db) := by
  simp only [deleteSale, hsid, hfind, Bool.false_eq_true, if_false]
  rw [filter_not_eq_self_of_find?_none _ _ hfind]

lemma deleteSale_found (db : DB) (user sid : String) (sale : SaleRow)
    (item : ItemRow)
    (hsid : (sid == "") = false)
    (hfind : findSaleOwned db sid user = some sale)
    (hitem : findItem db sale.item_id = some item) :
    deleteSale db user (some sid) =
      (.deleted,
       { setItemQuantities db sale.item_id
           (jadd item.quantity_on_hand sale.quantity_sold)
           (jsub item.quantity_sold sale.quantity_sold)
         with sales := db.sales.filter (fun s => !(s.id == sid && s.user_id == user)) }) := by
  simp only [deleteSale, hsid, hfind, hitem, Bool.false_eq_true, if_false]
  rw [sales_setItemQuantities]

lemma deleteSale_found_fst (db : DB) (user sid : String) (sale : SaleRow)
    (item : ItemRow)
    (hsid : (sid == "") = false)
    (hfind : findSaleOwned db sid user = some sale)
    (hitem : findItem db sale.item_id = some item) :
    (deleteSale db user (some sid)).1 = .deleted := by
  rw [deleteSale_found db user sid sale item hsid hfind hitem]

lemma deleteSale_found_item (db : DB) (user sid : String) (sale : SaleRow)
    (item : ItemRow)
    (hsid : (sid == "") = false)
    (hfind : findSaleOwned db sid user = some sale)
    (hitem : findItem db sale.item_id = some item) (idq : String) :
    findItem (deleteSale db user (some sid)).2 idq
      = findItem (setItemQuantities db sale.item_id
          (jadd item.quantity_on_hand sale.quantity_sold)
          (jsub item.quantity_sold sale.quantity_sold)) idq := by
  rw [deleteSale_found db user sid sale item hsid hfind hitem]
  rfl

lemma deleteSale_found_sale_gone (db : DB) (user sid : String) (sale : SaleRow)
    (item : ItemRow)
    (hsid : (sid == "") = false)
    (hfind : findSaleOwned db sid user = some sale)
    (hitem : findItem db sale.item_id = some item) :
    findSaleOwned (deleteSale db user (some sid)).2 sid user = none := by
  rw [deleteSale_found db user sid sale item hsid hfind hitem]
  exact find?_filter_not _ _

/-! ## Helper lemmas: the derived fields written by the PATCH handler -/

lemma patchedSale_gross (b : PatchBody) (item : ItemRow) (s : SaleRow)
    (sp q pp : ℚ) (hsp : b.sale_price = .num sp) (hq : b.quantity_sold = .num q)
    (hpp : item.purchase_price = .num pp) :
    (patchedSale b item s).gross_profit = .num (sp * q - pp * q) := by
  simp [patchedSale, hsp, hq, hpp]

lemma patchedSale_net (b : PatchBody) (item : ItemRow) (s : SaleRow)
    (sp q pp pf sc of : ℚ)
    (hsp : b.sale_price = .num sp) (hq : b.quantity_sold = .num q)
    (hpp : item.purchase_price = .num pp)
    (hpf : b.platform_fees = .num pf ∨ (b.platform_fees = .undef ∧ pf = 0))
    (hsc : b.shipping_cost = .num sc ∨ (b.shipping_cost = .undef ∧ sc = 0))
    (hof : b.other_fees = .num of ∨ (b.other_fees = .undef ∧ of = 0)) :
    (patchedSale b item s).net_profit
      = .num (sp * q - pp * q - pf - sc - of) := by
  simp [patchedSale, hsp, hq, hpp, jor_fee hpf, jor_fee hsc, jor_fee hof]

lemma patchedSale_margin_nonpos (b : PatchBody) (item : ItemRow) (s : SaleRow)
    (sp : ℚ) (hsp : b.sale_price = .num sp) (hle : sp ≤ 0) :
    (patchedSale b item s).profit_margin = .num 0 := by
  simp [patchedSale, hsp, not_lt.mpr hle]

lemma patchedSale_margin_pos (b : PatchBody) (item : ItemRow) (s : SaleRow)
    (sp q pp pf sc of : ℚ)
    (hsp : b.sale_price = .num sp) (hq : b.quantity_sold = .num q)
    (hpp : item.purchase_price = .num pp)
    (hpf : b.platform_fees = .num pf ∨ (b.platform_fees = .undef ∧ pf = 0))
    (hsc : b.shipping_cost = .num sc ∨ (b.shipping_cost = .undef ∧ sc = 0))
    (hof : b.other_fees = .num of ∨ (b.other_fees = .undef ∧ of = 0))
    (hpos : 0 < sp) (hq0 : q ≠ 0) :
    (patchedSale b item s).profit_margin
      = .num ((sp * q - pp * q - pf - sc - of) / (sp * q) * 100) := by
  have hd : sp * q ≠ 0 := mul_ne_zero (ne_of_gt hpos) hq0
  simp [patchedSale, hsp, hq, hpp, jor_fee hpf, jor_fee hsc, jor_fee hof,
    hpos, jdiv_num _ _ hd]

/-! ## Sample store used by the concrete witnesses

One item of user `u1` bought at 10 apiece, 5 purchased, 3 on hand, 2
sold, and one existing sale of 2 units at price 25 with fees 3 and 2 —
the worked scenario of the spec after its first `recordSale`. -/

def itemA : ItemRow :=
  { id := "item1", user_id := "u1", purchase_price := .num 10,
    quantity_purchased := .num 5, quantity_on_hand := .num 3,
    quantity_sold := .num 2 }

def saleA : SaleRow :=
  { id := "sale1", user_id := "u1", item_id := "item1",
    platform := .str "ebay", sale_price := .num 25,
    sale_date := .str "2024-01-02", quantity_sold := .num 2,
    platform_fees := .num 3, shipping_cost := .num 2, other_fees := .num 0,
    notes := .jnull, gross_profit := .num 30, net_profit := .num 25,
    profit_margin := .num 50, is_synced_from_api := false }

def dbA : DB := { items := [itemA], sales := [saleA] }

/-- A fresh-stock variant of the sample store: the item before any sale
(5 on hand, 0 sold) and an empty sales table. -/
def itemB : ItemRow :=
  { id := "item1", user_id := "u1", purchase_price := .num 10,
    quantity_purchased := .num 5, quantity_on_hand := .num 5,
    quantity_sold := .num 0 }

def dbB : DB := { items := [itemB], sales := [] }

/-- A well-formed POST body against the sample item: 2 units at 25 with
fees 3 and 2. -/
def postBodyA : PostBody :=
  { item_id := .str "item1", platform := .str "ebay", sale_price := .num 25,
    sale_date := .str "2024-01-02", quantity_sold := .num 2,
    platform_fees := .num 3, shipping_cost := .num 2, other_fees := .num 0,
    notes := .undef }

/-- A PATCH body replacing the sample sale: 1 unit at 20, platform fee 1,
shipping absent, other fee 0. -/
def patchBodyA : PatchBody :=
  { id := .str "sale1", platform := .str "ebay", sale_price := .num 20,
    sale_date := .str "2024-01-03", quantity_sold := .num 1,
    platform_fees := .num 1, shipping_cost := .undef, other_fees := .num 0,
    notes := .jnull }

/-! ## The claims -/

/-- C1: for every updateSale call whose sale exists and belongs to the
caller and whose stock check passes (with numeric price, quantity and
purchase price, and each fee either a number or absent and then taken as
0), the persisted sale's derived fields equal the spec formulas computed
from the new inputs and the item's current purchase price:
`gross_profit = (sale_price - purchase_price) * quantity_sold`,
`net_profit = gross_profit - platform_fees - shipping_cost - other_fees`,
and `profit_margin = net_profit / (sale_price * quantity_sold) * 100`
when the `sale_price > 0` gate allows the division (stated under
`quantity_sold ≠ 0`, where the rational division expresses the formula),
else `0`. -/
theorem C1_updateSale_derived_fields
    (db : DB) (user : String) (b : PatchBody) (oldSale : SaleRow) (item : ItemRow)
    (sp q pp pf sc of : ℚ)
    (hid : truthy b.id = true)
    (hfind : findSaleOwnedBy db b.id user = some oldSale)
    (hitem : findItem db oldSale.item_id = some item)
    (hsp : b.sale_price = .num sp)
    (hq : b.quantity_sold = .num q)
    (hpp : item.purchase_price = .num pp)
    (hpf : b.platform_fees = .num pf ∨ (b.platform_fees = .undef ∧ pf = 0))
    (hsc : b.shipping_cost = .num sc ∨ (b.shipping_cost = .undef ∧ sc = 0))
    (hof : b.other_fees = .num of ∨ (b.other_fees = .undef ∧ of = 0))
    (hstock : (jgt (jsub b.quantity_sold oldSale.quantity_sold) (.num 0)
        && jlt item.quantity_on_hand (jsub b.quantity_sold oldSale.quantity_sold)) = false) :
    (patchOk (updateSale db user b).1).map SaleRow.gross_profit
        = some (.num ((sp - pp) * q)) ∧
    (patchOk (updateSale db user b).1).map SaleRow.net_profit
        = some (.num ((sp - pp) * q - pf - sc - of)) ∧
    (sp ≤ 0 → (patchOk (updateSale db user b).1).map SaleRow.profit_margin
        = some (.num 0)) ∧
    (0 < sp → q ≠ 0 → (patchOk (updateSale db user b).1).map SaleRow.profit_margin
        = some (.num (((sp - pp) * q - pf - sc - of) / (sp * q) * 100))) := by
  rw [updateSale_ok db user b oldSale item hid hfind hitem hstock]
  have hg : sp * q - pp * q = (sp - pp) * q := by ring
  have hn : sp * q - pp * q - pf - sc - of = (sp - pp) * q - pf - sc - of := by
    rw [hg]
  refine ⟨?_, ?_, ?_, ?_⟩
  · simp only [patchOk, Option.map_some']
    rw [patchedSale_gross b item oldSale sp q pp hsp hq hpp, hg]
  · simp only [patchOk, Option.map_some']
    rw [patchedSale_net b item oldSale sp q pp pf sc of hsp hq hpp hpf hsc hof, hn]
  · intro hle
    simp only [patchOk, Option.map_some']
    rw [patchedSale_margin_nonpos b item oldSale sp hsp hle]
  · intro hpos hq0
    simp only [patchOk, Option.map_some']
    rw [patchedSale_margin_pos b item oldSale sp q pp pf sc of hsp hq hpp
        hpf hsc hof hpos hq0, hn]

/-- Witness for C1 at the sample store: updating the sample sale to 1
unit at 20 with platform fee 1 and absent shipping. -/
theorem C1_updateSale_derived_fields_witness :
    (patchOk (updateSale dbA "u1" patchBodyA).1).map SaleRow.gross_profit
        = some (.num ((20 - 10) * 1)) ∧
    (patchOk (updateSale dbA "u1" patchBodyA).1).map SaleRow.net_profit
        = some (.num ((20 - 10) * 1 - 1 - 0 - 0)) ∧
    ((20 : ℚ) ≤ 0 → (patchOk (updateSale dbA "u1" patchBodyA).1).map SaleRow.profit_margin
        = some (.num 0)) ∧
    ((0 : ℚ) < 20 → (1 : ℚ) ≠ 0 →
      (patchOk (updateSale dbA "u1" patchBodyA).1).map SaleRow.profit_margin
        = some (.num (((20 - 10) * 1 - 1 - 0 - 0) / (20 * 1) * 100))) :=
  C1_updateSale_derived_fields dbA "u1" patchBodyA saleA itemA 20 1 10 1 0 0
    rfl rfl rfl rfl rfl rfl (Or.inl rfl) (Or.inr ⟨rfl, rfl⟩) (Or.inl rfl)
    (by norm_num [patchBodyA, saleA, itemA, jgt, jlt, jsub, jadd, jneg, toNum])

/-- The expression `net_profit / (sale_price * quantity_sold) * 100` of
the PATCH handler, evaluated on the stored net profit of a sale row and
the body's price and quantity — used to state that the division is
really performed when the margin gate opens. -/
def marginOfStored (b : PatchBody) (s : SaleRow) : JVal :=
  jmul (jdiv s.net_profit (jmul b.sale_price b.quantity_sold)) (.num 100)

/-- C6: in updateSale the profit-margin divide-by-zero guard is exactly
`sale_price > 0`: for every update whose other checks pass, a numeric
sale price ≤ 0 stores margin 0 (even when the net profit is nonzero —
the statement puts no constraint on the other fields), and a sale price
> 0 stores exactly the division
`net_profit / (sale_price * quantity_sold) * 100`. -/
theorem C6_updateSale_margin_guard
    (db : DB) (user : String) (b : PatchBody) (oldSale : SaleRow) (item : ItemRow)
    (sp : ℚ)
    (hid : truthy b.id = true)
    (hfind : findSaleOwnedBy db b.id user = some oldSale)
    (hitem : findItem db oldSale.item_id = some item)
    (hsp : b.sale_price = .num sp)
    (hstock : (jgt (jsub b.quantity_sold oldSale.quantity_sold) (.num 0)
        && jlt item.quantity_on_hand (jsub b.quantity_sold oldSale.quantity_sold)) = false) :
    (sp ≤ 0 → (patchOk (updateSale db user b).1).map SaleRow.profit_margin
        = some (.num 0)) ∧
    (0 < sp → (patchOk (updateSale db user b).1).map SaleRow.profit_margin
        = (patchOk (updateSale db user b).1).map (marginOfStored b)) := by
  rw [updateSale_ok db user b oldSale item hid hfind hitem hstock]
  constructor
  · intro hle
    simp only [patchOk, Option.map_some']
    rw [patchedSale_margin_nonpos b item oldSale sp hsp hle]
  · intro hpos
    simp only [patchOk, Option.map_some']
    simp [patchedSale, marginOfStored, hsp, hpos]

/-- A PATCH body selling the sample sale at price 0 — the purchase price
is 10, so the recomputed net profit is the nonzero −10. -/
def patchBodyZ : PatchBody :=
  { id := .str "sale1", platform := .str "ebay", sale_price := .num 0,
    sale_date := .str "2024-01-03", quantity_sold := .num 1,
    platform_fees := .num 0, shipping_cost := .num 0, other_fees := .num 0,
    notes := .jnull }

/-- Witness for C6: updating the sample sale to price 0 — the gate is
closed and the stored margin is 0. -/
theorem C6_updateSale_margin_guard_witness :
    ((0 : ℚ) ≤ 0 → (patchOk (updateSale dbA "u1" patchBodyZ).1).map SaleRow.profit_margin
        = some (.num 0)) ∧
    ((0 : ℚ) < 0 → (patchOk (updateSale dbA "u1" patchBodyZ).1).map SaleRow.profit_margin
        = (patchOk (updateSale dbA "u1" patchBodyZ).1).map (marginOfStored patchBodyZ)) :=
  C6_updateSale_margin_guard dbA "u1" patchBodyZ saleA itemA 0 rfl rfl rfl rfl
    (by norm_num [patchBodyZ, saleA, itemA, jgt, jlt, jsub, jadd, jneg, toNum])

/-- C10: updateSale performs no type or range validation on the
replacement fields: whenever the sale id is truthy, the sale exists and
belongs to the caller and its item is found, the outcome is only ever
the stock rejection or success — no value of `sale_price` or
`quantity_sold` reaches an invalid-input failure (the PATCH outcome type
has no such case because the handler has no such branch) — and when
`quantity_sold` is absent the quantity difference is `NaN`, the stock
check is skipped (`NaN > 0` is false), the update succeeds, and the
`NaN`-derived gross and net profit are persisted. -/
theorem C10_updateSale_no_validation
    (db : DB) (user : String) (b : PatchBody) (oldSale : SaleRow) (item : ItemRow)
    (hid : truthy b.id = true)
    (hfind : findSaleOwnedBy db b.id user = some oldSale)
    (hitem : findItem db oldSale.item_id = some item) :
    patchStockOrOk (updateSale db user b).1 = true ∧
    (b.quantity_sold = .undef →
      (patchOk (updateSale db user b).1).map SaleRow.gross_profit = some .nan ∧
      (patchOk (updateSale db user b).1).map SaleRow.net_profit = some .nan) := by
  constructor
  · cases hg : (jgt (jsub b.quantity_sold oldSale.quantity_sold) (.num 0)
        && jlt item.quantity_on_hand (jsub b.quantity_sold oldSale.quantity_sold)) with
    | true =>
      rw [updateSale_stockFail db user b oldSale item hid hfind hitem hg]
      rfl
    | false =>
      rw [updateSale_ok db user b oldSale item hid hfind hitem hg]
      rfl
  · intro hu
    have hdiff : jsub b.quantity_sold oldSale.quantity_sold = .nan := by
      rw [hu]; exact jsub_undef_left _
    have hguard : (jgt (jsub b.quantity_sold oldSale.quantity_sold) (.num 0)
        && jlt item.quantity_on_hand (jsub b.quantity_sold oldSale.quantity_sold)) = false := by
      rw [hdiff]; rfl
    rw [updateSale_ok db user b oldSale item hid hfind hitem hguard]
    have hgross : (patchedSale b item oldSale).gross_profit = .nan := by
      simp only [patchedSale]
      rw [hu, jmul_undef_right, jmul_undef_right]
      rfl
    have hnet : (patchedSale b item oldSale).net_profit = .nan := by
      simp only [patchedSale]
      rw [hu, jmul_undef_right, jmul_undef_right, jsub_nan_left,
          jsub_nan_left, jsub_nan_left, jsub_nan_left]
    constructor
    · simp only [patchOk, Option.map_some']
      exact congrArg some hgross
    · simp only [patchOk, Option.map_some']
      exact congrArg some hnet

/-- A PATCH body for the sample sale whose `quantity_sold` is absent. -/
def patchBodyU : PatchBody :=
  { id := .str "sale1", platform := .str "ebay", sale_price := .num 20,
    sale_date := .str "2024-01-03", quantity_sold := .undef,
    platform_fees := .num 1, shipping_cost := .num 0, other_fees := .num 0,
    notes := .jnull }

/-- Witness for C10: the absent-quantity update to the sample sale
succeeds and persists `NaN` profit fields. -/
theorem C10_updateSale_no_validation_witness :
    patchStockOrOk (updateSale dbA "u1" patchBodyU).1 = true ∧
    (patchBodyU.quantity_sold = .undef →
      (patchOk (updateSale dbA "u1" patchBodyU).1).map SaleRow.gross_profit = some .nan ∧
      (patchOk (updateSale dbA "u1" patchBodyU).1).map SaleRow.net_profit = some .nan) :=
  C10_updateSale_no_validation dbA "u1" patchBodyU saleA itemA rfl rfl rfl

/-- C7: with numeric quantities, let
`quantityDiff = newQuantitySold - oldQuantitySold`. If the difference is
positive and exceeds the item's on-hand quantity, updateSale fails with
the insufficient-stock error carrying the needed and available amounts
and changes nothing; if the difference is ≤ 0 no stock bound is checked
and the update succeeds; and on success with a nonzero difference the
item's on-hand counter decreases by the difference while its sold
counter increases by it. -/
theorem C7_updateSale_quantity_diff
    (db : DB) (user : String) (b : PatchBody) (oldSale : SaleRow) (item : ItemRow)
    (nq oq a bb : ℚ)
    (hid : truthy b.id = true)
    (hfind : findSaleOwnedBy db b.id user = some oldSale)
    (hitem : findItem db oldSale.item_id = some item)
    (hq : b.quantity_sold = .num nq)
    (hold : oldSale.quantity_sold = .num oq)
    (hoh : item.quantity_on_hand = .num a)
    (hqs : item.quantity_sold = .num bb) :
    (0 < nq - oq → a < nq - oq →
      updateSale db user b = (.insufficientStock (.num (nq - oq)) (.num a), db)) ∧
    (nq - oq ≤ 0 → (patchOk (updateSale db user b).1).isSome = true) ∧
    (nq - oq ≠ 0 → ¬ (0 < nq - oq ∧ a < nq - oq) →
      (findItem (updateSale db user b).2 item.id).map ItemRow.quantity_on_hand
          = some (.num (a - (nq - oq))) ∧
      (findItem (updateSale db user b).2 item.id).map ItemRow.quantity_sold
          = some (.num (bb + (nq - oq)))) := by
  have hdiff : jsub b.quantity_sold oldSale.quantity_sold = .num (nq - oq) := by
    rw [hq, hold, jsub_num]
  refine ⟨?_, ?_, ?_⟩
  · intro h1 h2
    have hstock : (jgt (jsub b.quantity_sold oldSale.quantity_sold) (.num 0)
        && jlt item.quantity_on_hand (jsub b.quantity_sold oldSale.quantity_sold)) = true := by
      rw [hdiff, hoh]
      simp [h1, h2]
    rw [updateSale_stockFail db user b oldSale item hid hfind hitem hstock,
        hdiff, hoh]
  · intro hle
    have hstock : (jgt (jsub b.quantity_sold oldSale.quantity_sold) (.num 0)
        && jlt item.quantity_on_hand (jsub b.quantity_sold oldSale.quantity_sold)) = false := by
      rw [hdiff]
      simp [not_lt.mpr hle]
    rw [updateSale_ok db user b oldSale item hid hfind hitem hstock]
    rfl
  · intro hne hnot
    have hstock : (jgt (jsub b.quantity_sold oldSale.quantity_sold) (.num 0)
        && jlt item.quantity_on_hand (jsub b.quantity_sold oldSale.quantity_sold)) = false := by
      rw [hdiff, hoh]
      by_cases h0 : 0 < nq - oq
      · have ha : ¬ a < nq - oq := fun h => hnot ⟨h0, h⟩
        simp [ha]
      · simp [h0]
    rw [updateSale_ok db user b oldSale item hid hfind hitem hstock, hdiff]
    have hfid : findItem db item.id = some item := by
      rw [findItem_id_eq db oldSale.item_id item hitem]; exact hitem
    have hnz : strictNeZero (JVal.num (nq - oq)) = true := by
      simp [hne]
    rw [if_pos hnz]
    have hset := findItem_setItemQuantities (setSaleRow db b.id (patchedSale b item))
      item.id (jsub item.quantity_on_hand (.num (nq - oq)))
      (jadd item.quantity_sold (.num (nq - oq))) item
      (by rw [findItem_setSaleRow]; exact hfid)
    rw [hset, hoh, hqs, jsub_num, jadd_num]
    constructor <;> rfl

/-- Witness for C7 at the sample store: reducing the sample sale from 2
units to 1 (difference −1) frees one unit back to the item. -/
theorem C7_updateSale_quantity_diff_witness :
    ((0 : ℚ) < 1 - 2 → (3 : ℚ) < 1 - 2 →
      updateSale dbA "u1" patchBodyA = (.insufficientStock (.num (1 - 2)) (.num 3), dbA)) ∧
    ((1 : ℚ) - 2 ≤ 0 → (patchOk (updateSale dbA "u1" patchBodyA).1).isSome = true) ∧
    ((1 : ℚ) - 2 ≠ 0 → ¬ ((0 : ℚ) < 1 - 2 ∧ (3 : ℚ) < 1 - 2) →
      (findItem (updateSale dbA "u1" patchBodyA).2 itemA.id).map ItemRow.quantity_on_hand
          = some (.num (3 - (1 - 2))) ∧
      (findItem (updateSale dbA "u1" patchBodyA).2 itemA.id).map ItemRow.quantity_sold
          = some (.num (2 + (1 - 2)))) :=
  C7_updateSale_quantity_diff dbA "u1" patchBodyA saleA itemA 1 2 3 2
    rfl rfl rfl rfl rfl rfl rfl

/-- C8: deleteSale on a sale id that does not exist for the caller is a
graceful no-op: it skips the counter adjustment, still performs the
delete call (which removes nothing), changes no state and reports
success — the outcome type has no not-found case because the handler has
no such branch. When the owned sale and its item exist, the sale's
quantity is added back to the item's on-hand counter, subtracted from
its sold counter, and the sale row is gone afterwards. -/
theorem C8_deleteSale_noop_or_restore
    (db db2 : DB) (user user2 sid sid2 : String)
    (sale : SaleRow) (item : ItemRow) (q a bb : ℚ)
    (hsid : (sid == "") = false)
    (hnone : findSaleOwned db sid user = none)
    (hsid2 : (sid2 == "") = false)
    (hsale : findSaleOwned db2 sid2 user2 = some sale)
    (hitem : findItem db2 sale.item_id = some item)
    (hq : sale.quantity_sold = .num q)
    (hoh : item.quantity_on_hand = .num a)
    (hqs : item.quantity_sold = .num bb) :
    deleteSale db user (some sid) = (.deleted, db) ∧
    ((deleteSale db2 user2 (some sid2)).1 = .deleted ∧
     (findItem (deleteSale db2 user2 (some sid2)).2 sale.item_id).map
         ItemRow.quantity_on_hand = some (.num (a + q)) ∧
     (findItem (deleteSale db2 user2 (some sid2)).2 sale.item_id).map
         ItemRow.quantity_sold = some (.num (bb - q)) ∧
     findSaleOwned (deleteSale db2 user2 (some sid2)).2 sid2 user2 = none) := by
  refine ⟨deleteSale_notFound db user sid hsid hnone,
    deleteSale_found_fst db2 user2 sid2 sale item hsid2 hsale hitem, ?_, ?_,
    deleteSale_found_sale_gone db2 user2 sid2 sale item hsid2 hsale hitem⟩
  · rw [deleteSale_found_item db2 user2 sid2 sale item hsid2 hsale hitem,
        findItem_setItemQuantities db2 sale.item_id _ _ item hitem]
    simp only [Option.map_some']
    rw [hoh, hq, jadd_num]
  · rw [deleteSale_found_item db2 user2 sid2 sale item hsid2 hsale hitem,
        findItem_setItemQuantities db2 sale.item_id _ _ item hitem]
    simp only [Option.map_some']
    rw [hqs, hq, jsub_num]

/-- Witness for C8: deleting an unknown id leaves the sample store
untouched, and deleting the sample sale returns its 2 units to the item. -/
theorem C8_deleteSale_noop_or_restore_witness :
    deleteSale dbA "u1" (some "nosuch") = (.deleted, dbA) ∧
    ((deleteSale dbA "u1" (some "sale1")).1 = .deleted ∧
     (findItem (deleteSale dbA "u1" (some "sale1")).2 saleA.item_id).map
         ItemRow.quantity_on_hand = some (.num (3 + 2)) ∧
     (findItem (deleteSale dbA "u1" (some "sale1")).2 saleA.item_id).map
         ItemRow.quantity_sold = some (.num (2 - 2)) ∧
     findSaleOwned (deleteSale dbA "u1" (some "sale1")).2 "sale1" "u1" = none) :=
  C8_deleteSale_noop_or_restore dbA dbA "u1" "u1" "nosuch" "sale1" saleA itemA
    2 3 2 rfl rfl rfl rfl rfl rfl rfl rfl

/-- C3: every sale operation preserves the item quantity invariant: for
updateSale with numeric quantities and for deleteSale, applied to an
item whose on-hand plus sold counters equal its purchased counter, the
same equality holds after the call — whether or not the stock check
passes — and the purchased counter is never modified. -/
theorem C3_quantity_invariant
    (db : DB) (user : String) (b : PatchBody) (oldSale : SaleRow) (item : ItemRow)
    (nq oq a bb c : ℚ)
    (hid : truthy b.id = true)
    (hfind : findSaleOwnedBy db b.id user = some oldSale)
    (hitem : findItem db oldSale.item_id = some item)
    (hq : b.quantity_sold = .num nq)
    (hold : oldSale.quantity_sold = .num oq)
    (hoh : item.quantity_on_hand = .num a)
    (hqs : item.quantity_sold = .num bb)
    (hpur : item.quantity_purchased = .num c)
    (hinv : a + bb = c)
    (db2 : DB) (user2 sid2 : String) (sale2 : SaleRow) (item2 : ItemRow)
    (q2 a2 b2 c2 : ℚ)
    (hsid2 : (sid2 == "") = false)
    (hsale2 : findSaleOwned db2 sid2 user2 = some sale2)
    (hitem2 : findItem db2 sale2.item_id = some item2)
    (hq2 : sale2.quantity_sold = .num q2)
    (hoh2 : item2.quantity_on_hand = .num a2)
    (hqs2 : item2.quantity_sold = .num b2)
    (hpur2 : item2.quantity_purchased = .num c2)
    (hinv2 : a2 + b2 = c2) :
    ((findItem (updateSale db user b).2 oldSale.item_id).map countersSum
        = some (.num c) ∧
     (findItem (updateSale db user b).2 oldSale.item_id).map
        ItemRow.quantity_purchased = some (.num c)) ∧
    ((findItem (deleteSale db2 user2 (some sid2)).2 sale2.item_id).map countersSum
        = some (.num c2) ∧
     (findItem (deleteSale db2 user2 (some sid2)).2 sale2.item_id).map
        ItemRow.quantity_purchased = some (.num c2)) := by
  have hdiff : jsub b.quantity_sold oldSale.quantity_sold = .num (nq - oq) := by
    rw [hq, hold, jsub_num]
  have hiid : item.id = oldSale.item_id := findItem_id_eq db oldSale.item_id item hitem
  constructor
  · cases hg : (jgt (jsub b.quantity_sold oldSale.quantity_sold) (.num 0)
        && jlt item.quantity_on_hand (jsub b.quantity_sold oldSale.quantity_sold)) with
    | true =>
      rw [updateSale_stockFail db user b oldSale item hid hfind hitem hg]
      rw [show ((PatchResult.insufficientStock
          (jsub b.quantity_sold oldSale.quantity_sold) item.quantity_on_hand, db)).2
        = db from rfl, hitem]
      constructor
      · simp only [Option.map_some', countersSum]
        rw [hoh, hqs, jadd_num, hinv]
      · simp only [Option.map_some']
        rw [hpur]
    | false =>
      rw [updateSale_ok_item db user b oldSale item hid hfind hitem hg
            oldSale.item_id, hdiff]
      by_cases hz : nq - oq = 0
      · rw [if_neg (by simp [hz]), hitem]
        constructor
        · simp only [Option.map_some', countersSum]
          rw [hoh, hqs, jadd_num, hinv]
        · simp only [Option.map_some']
          rw [hpur]
      · rw [if_pos (by simp [hz]), ← hiid]
        rw [findItem_setItemQuantities (setSaleRow db b.id (patchedSale b item))
          item.id _ _ item (by rw [findItem_setSaleRow, hiid]; exact hitem)]
        constructor
        · simp only [Option.map_some', countersSum]
          rw [hoh, hqs, jsub_num, jadd_num, jadd_num]
          rw [show a - (nq - oq) + (bb + (nq - oq)) = a + bb from by ring, hinv]
        · simp only [Option.map_some']
          rw [hpur]
  · rw [deleteSale_found_item db2 user2 sid2 sale2 item2 hsid2 hsale2 hitem2,
        findItem_setItemQuantities db2 sale2.item_id _ _ item2 hitem2]
    constructor
    · simp only [Option.map_some', countersSum]
      rw [hoh2, hqs2, hq2, jadd_num, jsub_num, jadd_num]
      rw [show a2 + q2 + (b2 - q2) = a2 + b2 from by ring, hinv2]
    · simp only [Option.map_some']
      rw [hpur2]

/-- Witness for C3: the sample update (2 units down to 1) and the sample
delete both keep on-hand plus sold equal to the 5 purchased. -/
theorem C3_quantity_invariant_witness :
    ((findItem (updateSale dbA "u1" patchBodyA).2 saleA.item_id).map countersSum
        = some (.num 5) ∧
     (findItem (updateSale dbA "u1" patchBodyA).2 saleA.item_id).map
        ItemRow.quantity_purchased = some (.num 5)) ∧
    ((findItem (deleteSale dbA "u1" (some "sale1")).2 saleA.item_id).map countersSum
        = some (.num 5) ∧
     (findItem (deleteSale dbA "u1" (some "sale1")).2 saleA.item_id).map
        ItemRow.quantity_purchased = some (.num 5)) :=
  C3_quantity_invariant dbA "u1" patchBodyA saleA itemA 1 2 3 2 5
    rfl rfl rfl rfl rfl rfl rfl rfl (by norm_num)
    dbA "u1" "sale1" saleA itemA 2 3 2 5
    rfl rfl rfl rfl rfl rfl rfl (by norm_num)

/-- C2: for every valid recordSale request — validation passed, owned
item found (also first by id) with numeric fields, stock check passed —
the operation computes gross, net and margin per the section-3 formulas
from the item's current purchase price (the computation lives in the
spec-modelled insert trigger `salesInsertTrigger`), persists the new
sale row carrying those derived fields at the head of the sales table,
and moves the sold quantity from the item's on-hand counter to its sold
counter, all within the same operation. -/
theorem C2_recordSale_effects
    (db : DB) (user newId : String) (b : PostBody) (item : ItemRow)
    (sp q pp a bb pf sc of : ℚ)
    (hval : postValidate b = none)
    (hfind : findItemOwnedBy db b.item_id user = some item)
    (hfid : findItem db item.id = some item)
    (hsp : b.sale_price = .num sp) (hq : b.quantity_sold = .num q)
    (hpp : item.purchase_price = .num pp)
    (hoh : item.quantity_on_hand = .num a) (hqs : item.quantity_sold = .num bb)
    (hpf : b.platform_fees = .num pf ∨ (b.platform_fees = .undef ∧ pf = 0))
    (hsc : b.shipping_cost = .num sc ∨ (b.shipping_cost = .undef ∧ sc = 0))
    (hof : b.other_fees = .num of ∨ (b.other_fees = .undef ∧ of = 0))
    (hstock : ¬ (a < q)) :
    (postCreated (recordSale db user b newId).1).map SaleRow.gross_profit
        = some (.num ((sp - pp) * q)) ∧
    (postCreated (recordSale db user b newId).1).map SaleRow.net_profit
        = some (.num ((sp - pp) * q - pf - sc - of)) ∧
    (postCreated (recordSale db user b newId).1).map SaleRow.profit_margin
        = some (.num (((sp - pp) * q - pf - sc - of) / (sp * q) * 100)) ∧
    (recordSale db user b newId).2.sales.head?
        = postCreated (recordSale db user b newId).1 ∧
    (recordSale db user b newId).2.sales.tail = db.sales ∧
    (findItem (recordSale db user b newId).2 item.id).map ItemRow.quantity_on_hand
        = some (.num (a - q)) ∧
    (findItem (recordSale db user b newId).2 item.id).map ItemRow.quantity_sold
        = some (.num (bb + q)) := by
  obtain ⟨hp, hq0⟩ := postValidate_none_pos b sp q hsp hq hval
  have hstock' : jlt item.quantity_on_hand b.quantity_sold = false := by
    rw [hoh, hq, jlt_num]
    simp [hstock]
  have e := recordSale_created db user b newId item hval hfind hstock'
  have hrev : 0 < sp * q := mul_pos hp hq0
  have hgross : (salesInsertTrigger item (rawSaleRow user b newId item.id)).1.gross_profit
      = .num ((sp - pp) * q) := by
    simp [salesInsertTrigger, rawSaleRow, hsp, hq, hpp]
  have hnet : (salesInsertTrigger item (rawSaleRow user b newId item.id)).1.net_profit
      = .num ((sp - pp) * q - pf - sc - of) := by
    simp [salesInsertTrigger, rawSaleRow, hsp, hq, hpp,
      jor_fee hpf, jor_fee hsc, jor_fee hof]
  have hmargin : (salesInsertTrigger item (rawSaleRow user b newId item.id)).1.profit_margin
      = .num (((sp - pp) * q - pf - sc - of) / (sp * q) * 100) := by
    simp [salesInsertTrigger, rawSaleRow, hsp, hq, hpp,
      jor_fee hpf, jor_fee hsc, jor_fee hof, hrev, jdiv_num _ _ (ne_of_gt hrev)]
  have hitems : findItem (recordSale db user b newId).2 item.id
      = findItem (setItemQuantities db item.id
          (salesInsertTrigger item (rawSaleRow user b newId item.id)).2.quantity_on_hand
          (salesInsertTrigger item (rawSaleRow user b newId item.id)).2.quantity_sold)
          item.id := by
    rw [e]
    rfl
  have hih : (salesInsertTrigger item (rawSaleRow user b newId item.id)).2.quantity_on_hand
      = .num (a - q) := by
    simp [salesInsertTrigger, rawSaleRow, hoh, hq]
  have his : (salesInsertTrigger item (rawSaleRow user b newId item.id)).2.quantity_sold
      = .num (bb + q) := by
    simp [salesInsertTrigger, rawSaleRow, hqs, hq]
  refine ⟨?_, ?_, ?_, ?_, ?_, ?_, ?_⟩
  · rw [e]
    simp only [postCreated, Option.map_some']
    exact congrArg some hgross
  · rw [e]
    simp only [postCreated, Option.map_some']
    exact congrArg some hnet
  · rw [e]
    simp only [postCreated, Option.map_some']
    exact congrArg some hmargin
  · rw [e]
    rfl
  · rw [e]
    rfl
  · rw [hitems, findItem_setItemQuantities db item.id _ _ item hfid]
    simp only [Option.map_some']
    exact congrArg some hih
  · rw [hitems, findItem_setItemQuantities db item.id _ _ item hfid]
    simp only [Option.map_some']
    exact congrArg some his

/-- Witness for C2: recording 2 units at 25 with fees 3 and 2 against
the fresh sample item (purchase price 10, 5 on hand). -/
theorem C2_recordSale_effects_witness :
    (postCreated (recordSale dbB "u1" postBodyA "sale1").1).map SaleRow.gross_profit
        = some (.num ((25 - 10) * 2)) ∧
    (postCreated (recordSale dbB "u1" postBodyA "sale1").1).map SaleRow.net_profit
        = some (.num ((25 - 10) * 2 - 3 - 2 - 0)) ∧
    (postCreated (recordSale dbB "u1" postBodyA "sale1").1).map SaleRow.profit_margin
        = some (.num (((25 - 10) * 2 - 3 - 2 - 0) / (25 * 2) * 100)) ∧
    (recordSale dbB "u1" postBodyA "sale1").2.sales.head?
        = postCreated (recordSale dbB "u1" postBodyA "sale1").1 ∧
    (recordSale dbB "u1" postBodyA "sale1").2.sales.tail = dbB.sales ∧
    (findItem (recordSale dbB "u1" postBodyA "sale1").2 itemB.id).map
        ItemRow.quantity_on_hand = some (.num (5 - 2)) ∧
    (findItem (recordSale dbB "u1" postBodyA "sale1").2 itemB.id).map
        ItemRow.quantity_sold = some (.num (0 + 2)) :=
  C2_recordSale_effects dbB "u1" "sale1" postBodyA itemB 25 2 10 5 0 3 2 0
    rfl rfl rfl rfl rfl rfl rfl rfl (Or.inl rfl) (Or.inl rfl) (Or.inl rfl)
    (by norm_num)

/-- C4: for every validated recordSale request on an owned item with
numeric quantity and on-hand count: if the quantity exceeds the on-hand
count the operation fails with the insufficient-stock error carrying the
available quantity and the whole store — item quantities included — is
unchanged; if the quantity is exactly the on-hand count the stock check
passes, the sale is created, and the resulting on-hand count is 0 (the
adjustment living in the spec-modelled insert trigger). -/
theorem C4_recordSale_stock_boundary
    (db : DB) (user newId : String) (b : PostBody) (item : ItemRow) (q a : ℚ)
    (hval : postValidate b = none)
    (hfind : findItemOwnedBy db b.item_id user = some item)
    (hfid : findItem db item.id = some item)
    (hq : b.quantity_sold = .num q)
    (hoh : item.quantity_on_hand = .num a) :
    (a < q → recordSale db user b newId = (.insufficientStock (.num a), db)) ∧
    (q = a →
      (postCreated (recordSale db user b newId).1).isSome = true ∧
      (findItem (recordSale db user b newId).2 item.id).map ItemRow.quantity_on_hand
        = some (.num 0)) := by
  constructor
  · intro hlt
    have hstock : jlt item.quantity_on_hand b.quantity_sold = true := by
      rw [hoh, hq, jlt_num]
      simp [hlt]
    rw [recordSale_stockFail db user b newId item hval hfind hstock, hoh]
  · intro hqa
    have hstock' : jlt item.quantity_on_hand b.quantity_sold = false := by
      rw [hoh, hq, jlt_num]
      simp [hqa]
    have e := recordSale_created db user b newId item hval hfind hstock'
    constructor
    · rw [e]
      rfl
    · have hitems : findItem (recordSale db user b newId).2 item.id
          = findItem (setItemQuantities db item.id
              (salesInsertTrigger item (rawSaleRow user b newId item.id)).2.quantity_on_hand
              (salesInsertTrigger item (rawSaleRow user b newId item.id)).2.quantity_sold)
              item.id := by
        rw [e]
        rfl
      rw [hitems, findItem_setItemQuantities db item.id _ _ item hfid]
      simp only [Option.map_some']
      have hih : (salesInsertTrigger item (rawSaleRow user b newId item.id)).2.quantity_on_hand
          = .num 0 := by
        simp [salesInsertTrigger, rawSaleRow, hoh, hq, hqa]
      exact congrArg some hih

/-- A POST body selling exactly the 5 units the fresh sample item has on
hand. -/
def postBody5 : PostBody :=
  { item_id := .str "item1", platform := .str "ebay", sale_price := .num 25,
    sale_date := .str "2024-01-02", quantity_sold := .num 5,
    platform_fees := .num 3, shipping_cost := .num 2, other_fees := .num 0,
    notes := .undef }

/-- Witness for C4 at the boundary: selling exactly the 5 units on hand
of the fresh sample item empties its stock. -/
theorem C4_recordSale_stock_boundary_witness :
    ((5 : ℚ) < 5 → recordSale dbB "u1" postBody5 "sale1" = (.insufficientStock (.num 5), dbB)) ∧
    ((5 : ℚ) = 5 →
      (postCreated (recordSale dbB "u1" postBody5 "sale1").1).isSome = true ∧
      (findItem (recordSale dbB "u1" postBody5 "sale1").2 itemB.id).map
          ItemRow.quantity_on_hand = some (.num 0)) :=
  C4_recordSale_stock_boundary dbB "u1" "sale1" postBody5 itemB 5 5
    rfl rfl rfl rfl rfl

/-- C9: a create and delete round trip is the identity on the item
counters: for every valid recordSale against an owned item (numeric
fields, stock check passed), performing recordSale and then deleteSale
on the created sale id returns the item's on-hand and sold counters to
exactly their values before the recordSale. -/
theorem C9_record_then_delete_roundtrip
    (db : DB) (user newId : String) (b : PostBody) (item : ItemRow)
    (q a bb : ℚ)
    (hval : postValidate b = none)
    (hfind : findItemOwnedBy db b.item_id user = some item)
    (hfid : findItem db item.id = some item)
    (hq : b.quantity_sold = .num q)
    (hoh : item.quantity_on_hand = .num a)
    (hqs : item.quantity_sold = .num bb)
    (hstock : ¬ (a < q))
    (hnid : (newId == "") = false) :
    (findItem (deleteSale (recordSale db user b newId).2 user (some newId)).2 item.id).map
        ItemRow.quantity_on_hand = some (.num a) ∧
    (findItem (deleteSale (recordSale db user b newId).2 user (some newId)).2 item.id).map
        ItemRow.quantity_sold = some (.num bb) := by
  have hstock' : jlt item.quantity_on_hand b.quantity_sold = false := by
    rw [hoh, hq, jlt_num]
    simp [hstock]
  have e := recordSale_created db user b newId item hval hfind hstock'
  have hsales : (recordSale db user b newId).2.sales
      = (salesInsertTrigger item (rawSaleRow user b newId item.id)).1 :: db.sales := by
    rw [e]
  have hfind2 : findSaleOwned (recordSale db user b newId).2 newId user
      = some (salesInsertTrigger item (rawSaleRow user b newId item.id)).1 := by
    unfold findSaleOwned
    rw [hsales]
    apply List.find?_cons_of_pos
    simp [salesInsertTrigger, rawSaleRow]
  have hih : (salesInsertTrigger item (rawSaleRow user b newId item.id)).2.quantity_on_hand
      = .num (a - q) := by
    simp [salesInsertTrigger, rawSaleRow, hoh, hq]
  have his : (salesInsertTrigger item (rawSaleRow user b newId item.id)).2.quantity_sold
      = .num (bb + q) := by
    simp [salesInsertTrigger, rawSaleRow, hqs, hq]
  have hitemA2 : findItem (recordSale db user b newId).2 item.id
      = some ({ item with quantity_on_hand := .num (a - q), quantity_sold := .num (bb + q) } : ItemRow) := by
    have h1 : findItem (recordSale db user b newId).2 item.id
        = findItem (setItemQuantities db item.id
            (salesInsertTrigger item (rawSaleRow user b newId item.id)).2.quantity_on_hand
            (salesInsertTrigger item (rawSaleRow user b newId item.id)).2.quantity_sold)
            item.id := by
      rw [e]
      rfl
    rw [h1, findItem_setItemQuantities db item.id _ _ item hfid, hih, his]
  have hitemB2 : findItem (recordSale db user b newId).2
      (salesInsertTrigger item (rawSaleRow user b newId item.id)).1.item_id
      = some ({ item with quantity_on_hand := .num (a - q), quantity_sold := .num (bb + q) } : ItemRow) := hitemA2
  have hdel := deleteSale_found_item (recordSale db user b newId).2 user newId
    (salesInsertTrigger item (rawSaleRow user b newId item.id)).1
    { item with quantity_on_hand := .num (a - q), quantity_sold := .num (bb + q) }
    hnid hfind2 hitemB2 item.id
  rw [show (salesInsertTrigger item (rawSaleRow user b newId item.id)).1.item_id
      = item.id from rfl] at hdel
  rw [hdel, findItem_setItemQuantities (recordSale db user b newId).2 item.id _ _
      { item with quantity_on_hand := .num (a - q), quantity_sold := .num (bb + q) }
      hitemA2]
  constructor
  · simp only [Option.map_some']
    apply congrArg some
    rw [show (salesInsertTrigger item (rawSaleRow user b newId item.id)).1.quantity_sold
        = b.quantity_sold from rfl, hq, jadd_num, sub_add_cancel]
  · simp only [Option.map_some']
    apply congrArg some
    rw [show (salesInsertTrigger item (rawSaleRow user b newId item.id)).1.quantity_sold
        = b.quantity_sold from rfl, hq, jsub_num, add_sub_cancel_right]

/-- Witness for C9: recording the sample sale of 2 units against the
fresh item and deleting it restores the counters 5 and 0. -/
theorem C9_record_then_delete_roundtrip_witness :
    (findItem (deleteSale (recordSale dbB "u1" postBodyA "sale1").2 "u1" (some "sale1")).2
        itemB.id).map ItemRow.quantity_on_hand = some (.num 5) ∧
    (findItem (deleteSale (recordSale dbB "u1" postBodyA "sale1").2 "u1" (some "sale1")).2
        itemB.id).map ItemRow.quantity_sold = some (.num 0) :=
  C9_record_then_delete_roundtrip dbB "u1" "sale1" postBodyA itemB 2 5 0
    rfl rfl rfl rfl rfl rfl (by norm_num) rfl

/-- The rational 3/2, built so that its numerator and denominator are
literals. -/
def threeHalves : ℚ := ⟨3, 2, by norm_num, by norm_num⟩

/-- A POST body with the given numeric price and quantity, arbitrary fee
and note values, and the other required fields valid. -/
def mkBody (p q : ℚ) (pf sc of nt : JVal) : PostBody :=
  { item_id := .str "item1", platform := .str "ebay", sale_price := .num p,
    sale_date := .str "2024-01-02", quantity_sold := .num q,
    platform_fees := pf, shipping_cost := sc, other_fees := of, notes := nt }

/-- C5 as stated is false at two concrete requests against the fresh
sample store: a request with sale price 0 and every other field valid is
rejected by the missing-required-fields truthiness check (it does not
pass price validation such that the sale is created), and a request with
the positive non-integer quantity 3/2 passes validation and creates a
sale instead of failing with InvalidInput. -/
theorem C5_counterexample :
    (recordSale dbB "u1" { postBodyA with sale_price := .num 0 } "sale9").1
        = .invalid .missingFields ∧
    (postCreated (recordSale dbB "u1"
        { postBodyA with quantity_sold := .num threeHalves } "sale9").1).isSome
      = true := by
  constructor
  · rfl
  · rfl

/-- C5 (amended): on a request whose other required fields are valid,
recordSale validation passes exactly when the numeric sale price is > 0
and the numeric quantity is > 0: a sale price of 0 is rejected by the
truthiness missing-fields check rather than accepted by the price
comparison, and no integrality of the quantity is required, so any
positive fractional quantity is accepted; all other numeric values are
rejected. -/
theorem C5_validation_characterization (p q : ℚ) (pf sc of nt : JVal) :
    postValidate (mkBody p q pf sc of nt) = none ↔ (0 < p ∧ 0 < q) :=
  postValidate_none_iff _ p q rfl rfl rfl rfl rfl

/-- Witness for the amended C5 at price 25 and quantity 3/2. -/
theorem C5_validation_characterization_witness :
    postValidate (mkBody 25 threeHalves (.num 3) (.num 2) (.num 0) .undef) = none
    ↔ ((0 : ℚ) < 25 ∧ 0 < threeHalves) :=
  C5_validation_characterization 25 threeHalves (.num 3) (.num 2) (.num 0) .undef

end Profitably
